import Mathlib

/-!
Shallow embedding of the wombatpipi acquisition/audio core
(src/functions.py, src/serial_reader.py, src/sound.py).

Numbers are modelled as rationals (the Python code computes with floats;
rounding of individual float operations is not at issue in any claim),
except the oscillator phase arithmetic, which involves pi and is modelled
over the reals.  Python exceptions are modelled with `Except`; a Python
function that ends without a `return` statement has return value `None`,
modelled as `Option.none`.
-/

namespace Wombat

/-! ## AdaptiveMovingAverage (src/functions.py lines 7-71) -/

/-- State of `AdaptiveMovingAverage`: `size`, the two learning rates,
the per-element `average` vector and the `initialized` flag. -/
structure AMAState where
  size : Nat
  alpha_slow : ℚ
  alpha_fast : ℚ
  average : List ℚ
  initialized : Bool
deriving Repr, DecidableEq

/-- `AdaptiveMovingAverage.__init__`: average starts as `np.zeros(size)`,
not initialized. -/
def AMAState.init (size : Nat) (alpha_slow alpha_fast : ℚ) : AMAState :=
  { size := size, alpha_slow := alpha_slow, alpha_fast := alpha_fast,
    average := List.replicate size 0, initialized := false }

/-- One element of the update loop (src/functions.py lines 44-53):
pick `alpha_fast` when the new value is below the current average,
else `alpha_slow`, then `alpha * new + (1 - alpha) * avg`. -/
def amaStep (alpha_slow alpha_fast : ℚ) (avg newv : ℚ) : ℚ :=
  let alpha := if newv < avg then alpha_fast else alpha_slow
  alpha * newv + (1 - alpha) * avg

/-- `AdaptiveMovingAverage.update` (src/functions.py lines 23-55).
Raises `ValueError` ("SizeMismatch") when the input length differs from
`size` — before any mutation, so the object state is unchanged on the
raise.  On the first call the input is stored verbatim and `initialized`
is set; afterwards each element is smoothed by `amaStep`.  The result
pairs the Python outcome (returned average, or the propagated exception)
with the object state after the call. -/
def AMAState.update (s : AMAState) (new_values : List ℚ) :
    Except String (List ℚ) × AMAState :=
  if new_values.length ≠ s.size then
    (.error "SizeMismatch", s)
  else if s.initialized = false then
    (.ok new_values, { s with average := new_values, initialized := true })
  else
    let newavg := List.zipWith (amaStep s.alpha_slow s.alpha_fast) s.average new_values
    (.ok newavg, { s with average := newavg })

/-- `AdaptiveMovingAverage.get_average`. -/
def AMAState.get_average (s : AMAState) : List ℚ := s.average

/-! ## Feature extraction (src/functions.py lines 164-237) -/

/-- The global `current_features` dict (src/functions.py lines 165-174).
`timestamp` is carried but never touched by the functions modelled here. -/
structure Features where
  total_sum : ℚ
  first_half_sum : ℚ
  second_half_sum : ℚ
  diff : ℚ
  cumulative_total : ℚ
  peak : ℚ
  timestamp : ℚ
  ratio : ℚ
deriving Repr, DecidableEq

/-- Initial `current_features`: every field 0. -/
def Features.init : Features :=
  { total_sum := 0, first_half_sum := 0, second_half_sum := 0, diff := 0,
    cumulative_total := 0, peak := 0, timestamp := 0, ratio := 0 }

/-- The interior slice of `extract_signal_features`
(src/functions.py lines 203-207): `samples[start_index:-end_trim]` when
`end_trim > 0`, else `samples[start_index:]`. -/
def extractSubset (samples : List ℚ) (start_index end_trim : Nat) : List ℚ :=
  if end_trim > 0 then
    (samples.take (samples.length - end_trim)).drop start_index
  else
    samples.drop start_index

/-- Python `l[-n:]`: the last `n` elements (the whole list when shorter). -/
def takeLast (n : Nat) (l : List ℚ) : List ℚ := l.drop (l.length - n)

/-- `extract_signal_features` (src/functions.py lines 176-237): compute the
interior slice; on an empty slice zero the four shape fields; otherwise
`total_sum` is the slice sum, `first_half_sum` the sum of the first 10
elements divided by 10, `second_half_sum` the sum of the last 6 elements
divided by 6, and `diff` their difference.  Returns the updated
`current_features` state. -/
def extract_signal_features (f : Features) (samples : List ℚ)
    (start_index end_trim : Nat) : Features :=
  let subset := extractSubset samples start_index end_trim
  if subset.length = 0 then
    { f with total_sum := 0, first_half_sum := 0, second_half_sum := 0, diff := 0 }
  else
    let total_sum := subset.sum
    let first_half := subset.take 10
    let second_half := takeLast 6 subset
    let first_half_sum := first_half.sum / 10
    let second_half_sum := second_half.sum / 6
    let diff1 := first_half_sum - second_half_sum
    { f with total_sum := total_sum, first_half_sum := first_half_sum,
             second_half_sum := second_half_sum, diff := diff1 }

/-- In the source, `extract_signal_features` mutates the global dict and
ends without a `return` statement (its early-exit branch is a bare
`return`), so its Python *return value* is `None`.  The second component
models that return value, the first the mutated global state. -/
def extract_signal_features_call (f : Features) (samples : List ℚ)
    (start_index end_trim : Nat) : Features × Option Features :=
  (extract_signal_features f samples start_index end_trim, none)

end Wombat

namespace Wombat

/-! ## Peak tracker (src/functions.py lines 240-288) -/

/-- Python `int(x)` on a rational value: truncation toward zero. -/
def ratTrunc (q : ℚ) : ℤ := if 0 ≤ q then ⌊q⌋ else ⌈q⌉

/-- Render an integer in `[0, 99]` as a zero-padded two-digit string
(Python `f"{num:02d}"`). -/
def twoDigit (n : ℤ) : String :=
  (if n < 10 then "0" else "") ++ toString n.toNat

/-- `force_two_digit` (src/functions.py lines 240-248): truncate to an
integer, clamp to `[0, 99]`, zero-pad to two digits. -/
def force_two_digit (value : ℚ) : String :=
  let num := ratTrunc value
  let num2 := max 0 (min 99 num)
  twoDigit num2

/-- The accumulation section of `update_peak_tracker`
(src/functions.py lines 275-288): add `current` to `cumulative_total`
unconditionally, then on a new maximum record it in `peak` and recompute
`ratio = second_half_sum / first_half_sum` (0 when the denominator is 0). -/
def trackerAccumulate (f : Features) (current : ℚ) : Features :=
  let f1 := { f with cumulative_total := f.cumulative_total + current }
  if current > f1.peak then
    { f1 with peak := current,
              ratio := if f1.first_half_sum ≠ 0 then
                         f1.second_half_sum / f1.first_half_sum
                       else 0 }
  else f1

/-- `update_peak_tracker` with key `'diff'` (src/functions.py lines
252-288).  When `diff < 0`: remember whether `peak > 10` (and capture
`ratio * 100`), reset `cumulative_total` to 0 and `peak` to
`max current 0`; if the trigger fired, return `('play', code)` at once.
In every other path execution falls through to the accumulation section.
The second component is `some code` for `('play', code)` and `none` for
the Python return value `False`. -/
def update_peak_tracker (f : Features) : Features × Option String :=
  let current := f.diff
  if current < 0 then
    let play_conductivity := f.peak > 10
    let getratio := f.ratio * 100
    let f1 := { f with cumulative_total := 0, peak := max current 0 }
    if play_conductivity then
      (f1, some (force_two_digit getratio))
    else
      (trackerAccumulate f1 current, none)
  else
    (trackerAccumulate f current, none)

end Wombat

namespace Wombat

/-! ## Sound (src/sound.py) -/

/-- Audio globals of src/sound.py: `current_frequency`, `current_volume`,
`is_playing`.  (`phase`, a real number, is modelled separately with the
generation callback below.) -/
structure SoundState where
  current_frequency : ℚ
  current_volume : ℚ
  is_playing : Bool
deriving Repr, DecidableEq

/-- Module-level initial values (src/sound.py lines 9-11). -/
def SoundState.init : SoundState :=
  { current_frequency := 440, current_volume := 3/10, is_playing := false }

/-- `start_tone` (src/sound.py lines 56-92): no-op when already playing,
otherwise starts playback (the phase reset to 0 is part of the phase
model below). -/
def start_tone (s : SoundState) : SoundState :=
  if s.is_playing then s else { s with is_playing := true }

/-- `soundscape` (src/sound.py lines 119-152): with
`max_expected_strength = 100`, `min_volume = 0.05`, `max_volume = 0.7`,
`min_freq = 400`, `max_freq = 1000`, compute
`strength_ratio = min(1, strength / 100)` (no lower clamp), set volume
and frequency linearly in that ratio, and start the tone when not
playing.  `signal_shape_ratio` is unused. -/
def soundscape (s : SoundState) (signal_strength _signal_shape_ratio : ℚ) :
    SoundState :=
  let max_expected_strength : ℚ := 100
  let min_volume : ℚ := 5/100
  let max_volume : ℚ := 7/10
  let strength_ratio := min 1 (signal_strength / max_expected_strength)
  let vol := min_volume + (max_volume - min_volume) * strength_ratio
  let min_freq : ℚ := 400
  let max_freq : ℚ := 1000
  let strength_ratio2 := min 1 (signal_strength / max_expected_strength)
  let freq := min_freq + (max_freq - min_freq) * strength_ratio2
  let s1 := { s with current_volume := vol, current_frequency := freq }
  if s1.is_playing = false then start_tone s1 else s1

/-! ## The audio-feedback branch of the acquisition loop
(src/serial_reader.py lines 139-159) -/

/-- The `if enable_sound:` block of `_read_loop`: call
`extract_signal_features(normalized)` (start_index 4, end_trim 1 — the
defaults), then subscript its *return value* to build the shape ratio
(guarding `second_half_sum > 0`, else `1.0`) and call
`sound.soundscape(first_half_sum, ratio)`.  Any exception is caught by
`except Exception` and only logged.  Result: new features state, new
sound state, and whether a "Sound update error" occurred.  Because the
Python return value of `extract_signal_features` is `None`, the
subscript raises `TypeError` on the `none` branch. -/
def soundUpdateBranch (f : Features) (normalized : List ℚ) (snd : SoundState) :
    Features × SoundState × Bool :=
  match extract_signal_features_call f normalized 4 1 with
  | (f1, none) => (f1, snd, true)
  | (f1, some features) =>
      let ratio := if features.second_half_sum > 0 then
                     features.first_half_sum / features.second_half_sum
                   else 1
      (f1, soundscape snd features.first_half_sum ratio, false)

/-! ## The curve buffer (src/serial_reader.py lines 10-24, 161-169) -/

/-- `TIME_BUFFER_SIZE` (src/serial_reader.py line 11). -/
def TIME_BUFFER_SIZE : Nat := 100

/-- `deque(maxlen=m).append`: append on the right; when the length would
exceed `m`, discard from the left. -/
def dequePush (m : Nat) (buf : List α) (x : α) : List α :=
  let b := buf ++ [x]
  if m < b.length then b.drop (b.length - m) else b

/-- A sequence of appends. -/
def dequePushAll (m : Nat) (buf : List α) (xs : List α) : List α :=
  xs.foldl (dequePush m) buf

/-! ## Oscillator phase (src/sound.py lines 56-92)

The generation callback keeps a global `phase` in radians and, after
filling each block of `frames` samples, executes
`phase = (phase + 2 * np.pi * current_frequency * frames / sample_rate) % (2 * np.pi)`.
For a positive modulus, Python float `%` is `x - 2π * floor(x / 2π)`,
i.e. `2π * fract (x / 2π)`.  The arithmetic involves π, so this part of
the model lives over the reals. -/

/-- `sample_rate` (src/sound.py line 7). -/
noncomputable def sample_rate : ℝ := 48000

/-- `2 * np.pi`. -/
noncomputable def twoPi : ℝ := 2 * Real.pi

/-- Python `x % (2 * np.pi)` for real `x`: `x - 2π * ⌊x / 2π⌋`,
written via the fractional part. -/
noncomputable def wrapPhase (x : ℝ) : ℝ := twoPi * Int.fract (x / twoPi)

/-- The phase update performed at the end of one callback block of
`frames` samples at frequency `f` (src/sound.py line 83). -/
noncomputable def callbackPhase (f : ℝ) (frames : ℕ) (p : ℝ) : ℝ :=
  wrapPhase (p + twoPi * f * frames / sample_rate)

/-- Phase after `k` consecutive blocks of `frames` samples, starting from
the `phase = 0.0` set by `start_tone`. -/
noncomputable def phaseAfter (f : ℝ) (frames : ℕ) (k : ℕ) : ℝ :=
  (callbackPhase f frames)^[k] 0

/-- Phase after a sequence of blocks of the given sizes, starting from
the `phase = 0.0` set by `start_tone`. -/
noncomputable def phaseBlocks (f : ℝ) (bs : List ℕ) : ℝ :=
  bs.foldl (fun p frames => callbackPhase f frames p) 0

end Wombat

namespace Wombat

/-! ## Helper lemmas -/

lemma twoPi_pos : 0 < twoPi := by
  unfold twoPi; positivity

lemma twoPi_ne : twoPi ≠ 0 := ne_of_gt twoPi_pos

lemma wrapPhase_wrapPhase_add (x y : ℝ) :
    wrapPhase (wrapPhase x + y) = wrapPhase (x + y) := by
  unfold wrapPhase
  congr 1
  rw [add_div, mul_div_cancel_left₀ _ twoPi_ne]
  have h : Int.fract (x / twoPi) = x / twoPi - ⌊x / twoPi⌋ := rfl
  rw [h, sub_add_eq_add_sub, Int.fract_sub_int, add_div]

lemma wrapPhase_zero : wrapPhase 0 = 0 := by
  unfold wrapPhase
  rw [zero_div, Int.fract_zero, mul_zero]

lemma phaseBlocks_eq (f : ℝ) (bs : List ℕ) :
    phaseBlocks f bs = wrapPhase (twoPi * f * (bs.sum : ℕ) / sample_rate) := by
  have key : ∀ (bs : List ℕ) (p : ℝ),
      bs.foldl (fun p frames => callbackPhase f frames p) (wrapPhase p)
        = wrapPhase (p + twoPi * f * (bs.sum : ℕ) / sample_rate) := by
    intro bs
    induction bs with
    | nil => intro p; simp [wrapPhase_zero]
    | cons b bs ih =>
      intro p
      simp only [List.foldl_cons, List.sum_cons]
      rw [show callbackPhase f b (wrapPhase p)
            = wrapPhase (p + twoPi * f * b / sample_rate) from
          wrapPhase_wrapPhase_add p _]
      rw [ih]
      congr 1
      push_cast
      ring
  have h0 := key bs 0
  rw [wrapPhase_zero] at h0
  unfold phaseBlocks
  rw [h0, zero_add]

lemma phaseAfter_eq (f : ℝ) (frames k : ℕ) :
    phaseAfter f frames k = wrapPhase (twoPi * f * (frames * k : ℕ) / sample_rate) := by
  induction k with
  | zero =>
    simp [phaseAfter, wrapPhase_zero]
  | succ k ih =>
    unfold phaseAfter at ih ⊢
    rw [Function.iterate_succ_apply', ih]
    unfold callbackPhase
    rw [wrapPhase_wrapPhase_add]
    congr 1
    push_cast
    ring

lemma amaStep_between (aslow afast avg newv : ℚ)
    (hs0 : 0 < aslow) (hs1 : aslow ≤ 1) (hf0 : 0 < afast) (hf1 : afast ≤ 1) :
    min avg newv ≤ amaStep aslow afast avg newv ∧
      amaStep aslow afast avg newv ≤ max avg newv := by
  have hval : amaStep aslow afast avg newv
      = (if newv < avg then afast else aslow) * newv
        + (1 - (if newv < avg then afast else aslow)) * avg := rfl
  rw [hval]
  by_cases h : newv < avg
  · rw [if_pos h]
    constructor
    · rw [min_eq_right h.le]; nlinarith
    · rw [max_eq_left h.le]; nlinarith
  · rw [if_neg h]
    push_neg at h
    constructor
    · rw [min_eq_left h]; nlinarith
    · rw [max_eq_right h]; nlinarith

lemma dequePush_eq (m : Nat) (buf : List α) (x : α) :
    dequePush m buf x = (buf ++ [x]).drop (buf.length + 1 - m) := by
  unfold dequePush
  by_cases h : m < (buf ++ [x]).length
  · rw [if_pos h]
    congr 1
    simp
  · rw [if_neg h]
    simp only [List.length_append, List.length_singleton] at h
    have h0 : buf.length + 1 - m = 0 := by omega
    rw [h0, List.drop_zero]

lemma dequePush_length (m : Nat) (buf : List α) (x : α) :
    (dequePush m buf x).length = min m (buf.length + 1) := by
  rw [dequePush_eq, List.length_drop, List.length_append, List.length_singleton]
  omega

lemma dequePushAll_eq (m : Nat) :
    ∀ (xs buf : List α), buf.length ≤ m →
      dequePushAll m buf xs = (buf ++ xs).drop (buf.length + xs.length - m) := by
  intro xs
  induction xs with
  | nil =>
    intro buf hb
    have h0 : buf.length - m = 0 := by omega
    simp [dequePushAll, h0]
  | cons y ys ih =>
    intro buf hb
    have hlen : (dequePush m buf y).length ≤ m := by
      rw [dequePush_length]; omega
    have hstep : dequePushAll m buf (y :: ys) = dequePushAll m (dequePush m buf y) ys := rfl
    rw [hstep, ih _ hlen]
    have e1 : dequePush m buf y ++ ys = ((buf ++ [y]) ++ ys).drop (buf.length + 1 - m) := by
      rw [dequePush_eq]
      exact (List.drop_append_of_le_length
        (by simp only [List.length_append, List.length_singleton]; omega)).symm
    rw [e1, List.drop_drop, dequePush_length]
    have e2 : (buf ++ [y]) ++ ys = buf ++ y :: ys := by simp
    rw [e2]
    congr 1
    simp only [List.length_cons]
    omega

end Wombat

namespace Wombat

/-! ## Claims -/

/-- C1: code bug.  In the audio-feedback branch of `_read_loop`, the
Python return value of `extract_signal_features` is `None` (the function
only mutates the global dict), so `features['second_half_sum']` raises a
`TypeError` that the branch's `except Exception` swallows after logging.
For every parsed line and every prior state, the global features dict is
updated but the sound state is untouched and `soundscape` is never
called — the claim's forwarding of `(strength, shape_ratio)` to the
oscillator mapping never happens. -/
theorem C1_sound_branch_never_reaches_oscillator
    (f : Features) (normalized : List ℚ) (snd : SoundState) :
    soundUpdateBranch f normalized snd
      = (extract_signal_features f normalized 4 1, snd, true) := rfl

/-- C5: after `k` consecutive callback blocks of `frames` samples at
constant frequency `f`, the oscillator phase equals
`(2π·f·frames·k / sample_rate) mod 2π`; and for any way of splitting a
total sample count into blocks, the final phase depends only on the sum
of the block sizes, so two splits of the same total agree. -/
theorem C5_phase_accumulation (f : ℝ) (frames k : ℕ) (bs : List ℕ) :
    phaseAfter f frames k
      = wrapPhase (twoPi * f * ((frames * k : ℕ) : ℝ) / sample_rate) ∧
    phaseBlocks f bs
      = wrapPhase (twoPi * f * ((bs.sum : ℕ) : ℝ) / sample_rate) :=
  ⟨phaseAfter_eq f frames k, phaseBlocks_eq f bs⟩

end Wombat

namespace Wombat

/-- The payload the claim describes for the trigger event, following its
words: `clamp(round(ratio*100), 0, 99)` formatted as two digits.  This is
the claimed behaviour, to be compared against `force_two_digit`, which
truncates (Python `int`) instead of rounding. -/
def claimedTriggerPayload (ratio : ℚ) : String :=
  twoDigit (max 0 (min 99 (round (ratio * 100))))

/-- C2 counterexample: with `ratio = 0.019` (so `ratio * 100 = 1.9`),
entry `peak = 11` and `diff = -1`, the code emits payload "01"
(truncation of 1.9), while the claim's `round(ratio*100)` gives "02".
The claim as stated is false at this input. -/
theorem C2_counterexample :
    (update_peak_tracker
        { Features.init with diff := -1, peak := 11, ratio := 19/1000 }).2
      = some "01" ∧
    claimedTriggerPayload (19/1000) = "02" ∧ ("01" : String) ≠ "02" := by
  refine ⟨?_, ?_, by decide⟩
  · norm_num [update_peak_tracker, trackerAccumulate, force_two_digit, ratTrunc,
      twoDigit, Features.init]
    rfl
  · norm_num [claimedTriggerPayload, twoDigit, round_eq]
    rfl

/-- C2 amended: for every call on key 'diff', a trigger event is emitted
if and only if the current value is below zero and the entry peak exceeds
10; the payload equals `clamp(trunc(ratio*100), 0, 99)` — truncation
toward zero (Python `int`), not rounding — formatted as two digits. -/
theorem C2_trigger_iff_payload (f : Features) :
    ((update_peak_tracker f).2 ≠ none ↔ (f.diff < 0 ∧ 10 < f.peak)) ∧
    (f.diff < 0 → 10 < f.peak →
      (update_peak_tracker f).2
        = some (twoDigit (max 0 (min 99 (ratTrunc (f.ratio * 100)))))) := by
  constructor
  · unfold update_peak_tracker
    by_cases h1 : f.diff < 0
    · by_cases h2 : 10 < f.peak
      · simp [h1, h2]
      · simp [h1, h2]
    · simp [h1]
  · intro h1 h2
    unfold update_peak_tracker
    rw [if_pos h1, if_pos h2]
    rfl

/-- C2 witness: a concrete trigger with `ratio = 1/2` emits "50". -/
theorem C2_trigger_iff_payload_witness :
    (update_peak_tracker
        { Features.init with diff := -1, peak := 11, ratio := 1/2 }).2
      = some "50" := by
  have h := (C2_trigger_iff_payload
      { Features.init with diff := -1, peak := 11, ratio := 1/2 }).2
      (by norm_num [Features.init]) (by norm_num [Features.init])
  rw [h]
  norm_num [ratTrunc, twoDigit, Features.init]
  rfl

/-- C3: code bug.  With entry `peak = 5` (below the trigger threshold)
and `diff = -1`, the reset branch sets `cumulative_total` to 0 and then —
because the no-trigger path has no early return — falls through to the
accumulation section, whose comment says "Positive diff - accumulate" but
which adds the negative current unconditionally.  The call ends with
`cumulative_total = -1 < 0`, violating the claimed invariant that
`cumulative_total` never ends a call negative and is reset to 0 together
with `peak`. -/
theorem C3_cumulative_total_ends_negative :
    ((update_peak_tracker
        { Features.init with diff := -1, peak := 5, cumulative_total := 7 }).1.cumulative_total
      = -1) ∧
    ((update_peak_tracker
        { Features.init with diff := -1, peak := 5, cumulative_total := 7 }).1.peak
      = 0) ∧
    ((-1 : ℚ) < 0) := by
  norm_num [update_peak_tracker, trackerAccumulate, Features.init]

/-- C6 counterexample: on samples `[10,...,100]` with `start_index = 2`,
`end_trim = 1`, the interior slice is `[30,...,90]` and the code computes
`first_half_sum = 420 / 10 = 42.0`, not the claimed `12.0`. -/
theorem C6_counterexample :
    (extract_signal_features Features.init
        [10, 20, 30, 40, 50, 60, 70, 80, 90, 100] 2 1).first_half_sum = 42 ∧
    ((42 : ℚ) ≠ 12) := by
  constructor
  · norm_num [extract_signal_features, extractSubset, takeLast, Features.init]
  · norm_num

/-- C6 amended: feeding `[10,20,...,100]` with `start_index = 2` and
`end_trim = 1` yields `total_sum = 420`, `first_half_sum = 42.0` (slice
sum divided by the fixed window size 10), `second_half_sum = 65.0`, equal
to the mean of the trailing 6-element window of the interior slice, and
`diff = first_half_sum - second_half_sum = -23.0`. -/
theorem C6_feature_example :
    (extract_signal_features Features.init
        [10, 20, 30, 40, 50, 60, 70, 80, 90, 100] 2 1).total_sum = 420 ∧
    (extract_signal_features Features.init
        [10, 20, 30, 40, 50, 60, 70, 80, 90, 100] 2 1).first_half_sum = 42 ∧
    (extract_signal_features Features.init
        [10, 20, 30, 40, 50, 60, 70, 80, 90, 100] 2 1).second_half_sum = 65 ∧
    (extract_signal_features Features.init
        [10, 20, 30, 40, 50, 60, 70, 80, 90, 100] 2 1).second_half_sum
      = (takeLast 6 (extractSubset [10, 20, 30, 40, 50, 60, 70, 80, 90, 100] 2 1)).sum / 6 ∧
    (extract_signal_features Features.init
        [10, 20, 30, 40, 50, 60, 70, 80, 90, 100] 2 1).diff
      = (extract_signal_features Features.init
          [10, 20, 30, 40, 50, 60, 70, 80, 90, 100] 2 1).first_half_sum
        - (extract_signal_features Features.init
            [10, 20, 30, 40, 50, 60, 70, 80, 90, 100] 2 1).second_half_sum := by
  norm_num [extract_signal_features, extractSubset, takeLast, Features.init]

/-- C7 counterexample: `soundscape` computes
`strength_ratio = min(1, strength/100)` with no lower clamp at 0, so at
`strength = -100` the volume becomes `0.05 + 0.65 * (-1) = -0.6`, not the
`0.05` the claim's `clamp(strength/100, 0, 1)` would give. -/
theorem C7_counterexample :
    (soundscape SoundState.init (-100) 1).current_volume = -(3/5) ∧
    (-(3/5) : ℚ) ≠ 1/20 + (7/10 - 1/20) * (max 0 (min 1 ((-100 : ℚ) / 100))) := by
  constructor
  · norm_num [soundscape, start_tone, SoundState.init]
  · norm_num

/-- C7 amended: for every `(strength, shape_ratio)`, `soundscape` computes
`ratio = min(strength / 100, 1)` (upper clamp only — no lower clamp at 0),
`volume = 0.05 + (0.7 - 0.05) * ratio`,
`frequency = 400 + (1000 - 400) * ratio`, and after the call the
oscillator is playing (calling it while not running starts it). -/
theorem C7_soundscape_mapping (s : SoundState) (strength shape : ℚ) :
    (soundscape s strength shape).current_volume
      = 5/100 + (7/10 - 5/100) * min 1 (strength / 100) ∧
    (soundscape s strength shape).current_frequency
      = 400 + (1000 - 400) * min 1 (strength / 100) ∧
    (soundscape s strength shape).is_playing = true := by
  cases hb : s.is_playing <;>
    simp [soundscape, start_tone, hb]

end Wombat

namespace Wombat

/-- C4: the first `AdaptiveFilter.update` call stores the input verbatim
(and returns it) and sets `initialized`; every later call smooths each
element with `alpha_fast` exactly when the input is below the current
average at that index (else `alpha_slow`), and for learning rates in
`(0, 1]` each output element lies between the previous average and the
new input at that index. -/
theorem C4_adaptive_filter_update (s : AMAState) (v : List ℚ)
    (hlen : v.length = s.size) (havg : s.average.length = s.size)
    (hs0 : 0 < s.alpha_slow) (hs1 : s.alpha_slow ≤ 1)
    (hf0 : 0 < s.alpha_fast) (hf1 : s.alpha_fast ≤ 1) :
    (s.initialized = false →
      s.update v = (.ok v, { s with average := v, initialized := true })) ∧
    (s.initialized = true →
      ∃ r, s.update v = (.ok r, { s with average := r }) ∧
        r.length = s.size ∧
        ∀ i, i < s.size → ∃ a x y,
          s.average.get? i = some a ∧ v.get? i = some x ∧ r.get? i = some y ∧
          y = (if x < a then s.alpha_fast else s.alpha_slow) * x
              + (1 - (if x < a then s.alpha_fast else s.alpha_slow)) * a ∧
          min a x ≤ y ∧ y ≤ max a x) := by
  constructor
  · intro hinit
    simp [AMAState.update, hlen, hinit]
  · intro hinit
    refine ⟨List.zipWith (amaStep s.alpha_slow s.alpha_fast) s.average v, ?_, ?_, ?_⟩
    · simp [AMAState.update, hlen, hinit]
    · rw [List.length_zipWith, havg, hlen, min_self]
    · intro i hi
      have h1 : i < s.average.length := by rw [havg]; exact hi
      have h2 : i < v.length := by rw [hlen]; exact hi
      refine ⟨s.average.get ⟨i, h1⟩, v.get ⟨i, h2⟩,
        amaStep s.alpha_slow s.alpha_fast (s.average.get ⟨i, h1⟩) (v.get ⟨i, h2⟩),
        List.get?_eq_get h1, List.get?_eq_get h2, ?_, rfl,
        amaStep_between _ _ _ _ hs0 hs1 hf0 hf1⟩
      rw [List.get?_zipWith', List.get?_eq_get h1, List.get?_eq_get h2]
      rfl

/-- C4 witness: a fresh 2-element filter stores `[3, 4]` verbatim on its
first update and becomes initialized. -/
theorem C4_adaptive_filter_update_witness :
    (AMAState.init 2 (3/100) (1/10)).update [3, 4]
      = (.ok [3, 4],
         { AMAState.init 2 (3/100) (1/10) with
             average := [3, 4], initialized := true }) :=
  (C4_adaptive_filter_update (AMAState.init 2 (3/100) (1/10)) [3, 4]
    rfl rfl (by norm_num [AMAState.init]) (by norm_num [AMAState.init])
    (by norm_num [AMAState.init]) (by norm_num [AMAState.init])).1 rfl

/-- C8: `AdaptiveFilter.update` yields the `SizeMismatch` error (Python
`ValueError`) exactly when the input length differs from the configured
size; every error it can produce is that one (it is propagated, never
absorbed); and on failure the filter state is unchanged. -/
theorem C8_size_mismatch (s : AMAState) (v : List ℚ) :
    ((s.update v).1 = .error "SizeMismatch" ↔ v.length ≠ s.size) ∧
    (∀ e, (s.update v).1 = .error e → e = "SizeMismatch") ∧
    (v.length ≠ s.size → (s.update v).2 = s) := by
  by_cases h : v.length = s.size
  · by_cases h2 : s.initialized = false <;>
      simp [AMAState.update, h, h2]
  · simp [AMAState.update, h]

/-- C8 witness: a 3-element filter rejects a 2-element input with
`SizeMismatch` and keeps its state. -/
theorem C8_size_mismatch_witness :
    ((AMAState.init 3 (3/100) (1/10)).update [1, 2]).1 = .error "SizeMismatch" ∧
    ((AMAState.init 3 (3/100) (1/10)).update [1, 2]).2
      = AMAState.init 3 (3/100) (1/10) := by
  have h := C8_size_mismatch (AMAState.init 3 (3/100) (1/10)) [1, 2]
  exact ⟨h.1.mpr (by decide), h.2.2 (by decide)⟩

/-- C9: the curve buffer (`deque(maxlen=100)`) never exceeds 100
elements; pushing any sequence into an empty buffer keeps exactly the
trailing 100 in arrival order; and after 101 insertions of distinct
curves the oldest is absent while the newest 100 remain in order. -/
theorem C9_buffer_capacity {α : Type} :
    (∀ (buf : List α) (x : α),
      (dequePush TIME_BUFFER_SIZE buf x).length ≤ TIME_BUFFER_SIZE) ∧
    (∀ xs : List α,
      dequePushAll TIME_BUFFER_SIZE [] xs
        = xs.drop (xs.length - TIME_BUFFER_SIZE)) ∧
    (∀ (x : α) (xs : List α),
      (x :: xs).length = TIME_BUFFER_SIZE + 1 → x ∉ xs →
      dequePushAll TIME_BUFFER_SIZE [] (x :: xs) = xs ∧
      x ∉ dequePushAll TIME_BUFFER_SIZE [] (x :: xs)) := by
  refine ⟨?_, ?_, ?_⟩
  · intro buf x
    rw [dequePush_length]
    omega
  · intro xs
    have h := dequePushAll_eq TIME_BUFFER_SIZE xs [] (by simp)
    simpa using h
  · intro x xs hlen hnm
    have h := dequePushAll_eq TIME_BUFFER_SIZE (x :: xs) [] (by simp)
    simp only [List.nil_append, List.length_nil, Nat.zero_add] at h
    rw [hlen] at h
    have h1 : TIME_BUFFER_SIZE + 1 - TIME_BUFFER_SIZE = 1 := by omega
    rw [h1] at h
    simp only [List.drop_one, List.tail_cons] at h
    exact ⟨h, by rw [h]; exact hnm⟩

/-- C9 witness: pushing the 101 distinct values `0, 1, ..., 100` into an
empty buffer leaves `1, ..., 100`, and `0` is gone. -/
theorem C9_buffer_capacity_witness :
    dequePushAll TIME_BUFFER_SIZE [] (0 :: List.range' 1 100) = List.range' 1 100 ∧
    (0 : ℕ) ∉ dequePushAll TIME_BUFFER_SIZE [] (0 :: List.range' 1 100) :=
  C9_buffer_capacity.2.2 0 (List.range' 1 100) (by decide) (by decide)

/-- C10: for every non-empty interior slice, `first_half_sum` is the sum
of the first 10 slice elements divided by exactly 10 and
`second_half_sum` the sum of the last 6 divided by exactly 6, whatever
the slice length (the divisors never shrink with a short slice); and
when the slice has fewer than 16 elements the two windows overlap at
some index. -/
theorem C10_window_divisors (f : Features) (samples : List ℚ) (si et : Nat)
    (s : List ℚ) (hs : s = extractSubset samples si et) (hne : s ≠ []) :
    (extract_signal_features f samples si et).first_half_sum
      = (s.take 10).sum / 10 ∧
    (extract_signal_features f samples si et).second_half_sum
      = (s.drop (s.length - 6)).sum / 6 ∧
    (s.length < 16 → ∃ i, i < s.length ∧ i < 10 ∧ s.length - 6 ≤ i) := by
  subst hs
  have hlen0 : ¬((extractSubset samples si et).length = 0) := by
    simpa [List.length_eq_zero] using hne
  refine ⟨?_, ?_, ?_⟩
  · simp only [extract_signal_features]
    rw [if_neg hlen0]
  · simp only [extract_signal_features]
    rw [if_neg hlen0]
    rfl
  · intro h16
    exact ⟨(extractSubset samples si et).length - 6, by omega, by omega, le_refl _⟩

/-- C10 witness: the 7-element slice `[30,...,90]` from the C6 scenario
has `first_half_sum` divided by 10 and `second_half_sum` divided by 6,
and its windows overlap. -/
theorem C10_window_divisors_witness :
    (extract_signal_features Features.init
        [10, 20, 30, 40, 50, 60, 70, 80, 90, 100] 2 1).first_half_sum
      = (([30, 40, 50, 60, 70, 80, 90] : List ℚ).take 10).sum / 10 ∧
    (extract_signal_features Features.init
        [10, 20, 30, 40, 50, 60, 70, 80, 90, 100] 2 1).second_half_sum
      = (([30, 40, 50, 60, 70, 80, 90] : List ℚ).drop
          (([30, 40, 50, 60, 70, 80, 90] : List ℚ).length - 6)).sum / 6 ∧
    (([30, 40, 50, 60, 70, 80, 90] : List ℚ).length < 16 →
      ∃ i, i < ([30, 40, 50, 60, 70, 80, 90] : List ℚ).length ∧ i < 10 ∧
        ([30, 40, 50, 60, 70, 80, 90] : List ℚ).length - 6 ≤ i) :=
  C10_window_divisors Features.init [10, 20, 30, 40, 50, 60, 70, 80, 90, 100] 2 1
    [30, 40, 50, 60, 70, 80, 90] (by rfl) (by simp)

end Wombat
